import Mathlib

/-!
Shallow embedding of `src/draggable.directive.ts` (appDraggableDirective):
a pointer-driven drag-and-reorder state machine attached to one element of
a sibling list.

Modelling conventions:
* DOM elements are identified by natural numbers; the parent's child list is
  a `List Nat` in document order.  Fresh placeholder nodes created by
  `createEmbeddedView` take ids from a `nextId` counter.
* The element's `offsetLeft`/`offsetTop` (read by the move handler) and the
  inline `left`/`top` styles it writes are modelled by the single pair
  `elLeft`/`elTop`, since the style write is what the next offset read sees.
* `this.elementRef.nativeElement.oldIndex` (read on emit) is a DOM expando
  property the directive never assigns; it is modelled as
  `elOldIndexProp : Option Int`, initially `none` (JS `undefined`).
* `window.scrollX/Y`, `document.elementFromPoint` and the drag-handle hit
  test are environment inputs carried on the events.
* Angular removes `@HostListener` handlers when the directive is destroyed;
  the `alive` flag models that: no handler runs once `alive = false`.
-/

namespace Draggable

inductive Axis
  | x
  | y
deriving DecidableEq, Repr

/-- The `{oldIndex, newIndex}` payload of `changeCurrentElIndex`.
`newIndex` is an `Option` because the code emits
`nativeElement.oldIndex`, which can be `undefined` (`none`). -/
structure Emitted where
  oldIndex : Int
  newIndex : Option Int
deriving DecidableEq, Repr

/-- The directive's `@Input()` configuration plus the identity of the host
element (`dragId`) inside its parent's child list.  `dragBy` records whether
a handle selector was provided; `rowPlaceholder` whether a placeholder
template was provided. -/
structure Cfg where
  blockedAxis : Option Axis
  dragBy : Bool
  rowPlaceholder : Bool
  dragId : Nat
deriving DecidableEq, Repr

/-- Directive fields plus the observable element/DOM state the handlers
read and write. -/
@[ext]
structure DirState where
  isDragging : Bool
  initialX : Int
  initialY : Int
  prevX : Int
  prevY : Int
  rowPlaceholderViewRef : Bool
  rowPlaceholderElement : Option Nat
  oldIndex : Int
  mouseMoveListener : Bool
  elLeft : Int
  elTop : Int
  elOldIndexProp : Option Int
  children : List Nat
  nextId : Nat
  stylesSet : Bool
  draggingClass : Bool
  alive : Bool
deriving DecidableEq, Repr

/-- JS `Array.prototype.indexOf`: index of the first occurrence, `-1` when
absent. -/
def jsIndexOf (l : List Nat) (e : Nat) : Int :=
  if e ∈ l then (l.indexOf e : Int) else -1

/-- `insertBefore(parent, ph, anchor.nextSibling)`: place `ph` right after
the first occurrence of `anchor`; when `anchor` is absent the reference node
is null and `insertBefore` appends. -/
def insertAfter (l : List Nat) (anchor ph : Nat) : List Nat :=
  match l with
  | [] => [ph]
  | a :: rest => if a = anchor then a :: ph :: rest else a :: insertAfter rest anchor ph

/-- `insertBefore(parent, ph, children[index])`: for an in-range index,
insert before that child; otherwise `children[index]` is `undefined` and
`insertBefore` appends. -/
def insertBeforeAt (l : List Nat) (index : Int) (ph : Nat) : List Nat :=
  if 0 ≤ index ∧ index < (l.length : Int) then
    l.take index.toNat ++ ph :: l.drop index.toNat
  else
    l ++ [ph]

/-- The target-index computation of `onMouseMove` (lines 190-216): filter
result `items`, `indexOf + 1`, the two old-index adjustments, and the
return-to-origin decrement. -/
def computeNewIndex (items : List Nat) (cursorEl : Nat) (oldIndex clientY prevY : Int) :
    Int :=
  let itemsNumber : Int := items.length
  let n0 := jsIndexOf items cursorEl + 1
  let n1 := if n0 < 0 then 0 else n0
  let n2 := if n1 > oldIndex then (if n1 - 1 < 0 then 0 else n1 - 1) else n1
  let n3 := if n2 < oldIndex then (if n2 + 1 > itemsNumber then itemsNumber - 1 else n2 + 1) else n2
  if n3 = oldIndex ∧ clientY < prevY then n3 - 1 else n3

/-- `removeRowPlaceholderElement`: destroy the embedded view if live, and
detach the placeholder node if it is still in a parent.  A detached
placeholder (no parent) leaves the element field set, as in the source. -/
def removeRowPlaceholderElement (s : DirState) : DirState :=
  match s.rowPlaceholderElement with
  | some ph =>
      if ph ∈ s.children then
        { s with rowPlaceholderViewRef := false,
                 rowPlaceholderElement := none,
                 children := s.children.erase ph }
      else
        { s with rowPlaceholderViewRef := false }
  | none => { s with rowPlaceholderViewRef := false }

/-- The placeholder-element and child-list outcome of a removal, as a pure
function of the two fields `removeRowPlaceholderElement` reads. -/
def removeEC (pe : Option Nat) (ch : List Nat) : Option Nat × List Nat :=
  match pe with
  | some ph => if ph ∈ ch then (none, ch.erase ph) else (some ph, ch)
  | none => (none, ch)

/-- `createRowPlaceholderElement`: remove any existing placeholder, create a
fresh view, and insert its root node right after the host element. -/
def createRowPlaceholderElement (dragId : Nat) (s : DirState) : DirState :=
  let s1 := removeRowPlaceholderElement s
  let ph := s1.nextId
  { s1 with rowPlaceholderViewRef := true,
            rowPlaceholderElement := some ph,
            nextId := s1.nextId + 1,
            children := insertAfter s1.children dragId ph }

/-- `changeRowPlaceholderIndex`: remove the old placeholder, create a fresh
one, then append when `index` equals the child count, else insert before
`children[index]`. -/
def changeRowPlaceholderIndex (s : DirState) (index : Int) : DirState :=
  let s1 := removeRowPlaceholderElement s
  let ph := s1.nextId
  let s2 := { s1 with rowPlaceholderViewRef := true,
                      rowPlaceholderElement := some ph,
                      nextId := s1.nextId + 1 }
  if index = (s2.children.length : Int) then
    { s2 with children := s2.children ++ [ph] }
  else
    { s2 with children := insertBeforeAt s2.children index ph }

/-- `cleanupListeners`: drops the stored bound listener.  The
`removeEventListener` call has no DOM effect because the bound function was
never registered with `addEventListener` (the mousemove handler is the
Angular `@HostListener`). -/
def cleanupListeners (s : DirState) : DirState :=
  if s.mouseMoveListener then { s with mouseMoveListener := false } else s

/-- `ngOnDestroy`: Angular drops the host listeners (`alive := false`) and
the directive runs `cleanupListeners`. -/
def ngOnDestroy (s : DirState) : DirState :=
  cleanupListeners { s with alive := false }

/-- `onMouseDown`: when the press is on the handle (or no handle is
configured), reset styles, start the session at page coordinates
(`client + scroll`), apply the drag styles, and create the placeholder when
a template was provided. -/
def onMouseDown (cfg : Cfg) (s : DirState) (clientX clientY scrollX scrollY : Int)
    (handlerContainsTarget : Bool) : DirState :=
  if !cfg.dragBy || handlerContainsTarget then
    let ix := clientX + scrollX
    let iy := clientY + scrollY
    let s2 := { s with isDragging := true,
                       initialX := ix, initialY := iy,
                       prevX := ix, prevY := iy,
                       stylesSet := true, draggingClass := true }
    if cfg.rowPlaceholder then createRowPlaceholderElement cfg.dragId s2 else s2
  else s

/-- `onMouseUp`: when a session is active, end it, clean listeners, drop the
drag styles, re-read the layout offsets, remove the placeholder twice, and
emit `{oldIndex: this.oldIndex, newIndex: nativeElement.oldIndex}`. -/
def onMouseUp (s : DirState) : DirState × List Emitted :=
  if s.isDragging then
    let s1 := cleanupListeners { s with isDragging := false }
    let s2 := { s1 with stylesSet := false, draggingClass := false,
                        initialX := s1.elLeft, initialY := s1.elTop }
    let s3 := removeRowPlaceholderElement (removeRowPlaceholderElement s2)
    (s3, [{ oldIndex := s3.oldIndex, newIndex := s3.elOldIndexProp }])
  else (s, [])

/-- `onMouseMove`: when active, translate by the client-coordinate delta
along unblocked axes; along an unblocked vertical axis also re-evaluate the
target index over the placeholder-filtered siblings, relocate the
placeholder when a template exists, and record the index in `oldIndex`. -/
def onMouseMove (cfg : Cfg) (s : DirState) (clientX clientY : Int)
    (elementUnderCursor : Option Nat) : DirState :=
  if s.isDragging then
    let offsetX := clientX - s.prevX
    let offsetY := clientY - s.prevY
    let newLeft := s.elLeft + offsetX
    let newTop := s.elTop + offsetY
    let s1 := if cfg.blockedAxis = some Axis.x then s else { s with elLeft := newLeft }
    let s2 :=
      if cfg.blockedAxis = some Axis.y then s1
      else
        let s1t := { s1 with elTop := newTop }
        match elementUnderCursor with
        | some cursorEl =>
            let items := s1t.children.filter (fun c => some c != s1t.rowPlaceholderElement)
            let newIndex := computeNewIndex items cursorEl s1t.oldIndex clientY s1t.prevY
            let s1p := if cfg.rowPlaceholder then changeRowPlaceholderIndex s1t newIndex else s1t
            { s1p with oldIndex := newIndex }
        | none => s1t
    { s2 with prevX := clientX, prevY := clientY }
  else s

/-- Pointer events plus the environment data each handler reads. -/
inductive Ev
  | down (clientX clientY scrollX scrollY : Int) (handlerContainsTarget : Bool)
  | move (clientX clientY : Int) (elementUnderCursor : Option Nat)
  | up
  | destroy
deriving DecidableEq, Repr

def isUp : Ev → Bool
  | .up => true
  | _ => false

/-- A move event that reaches the index re-evaluation branch: the vertical
axis is unblocked and `elementFromPoint` returned an element. -/
def moveReevaluates (cfg : Cfg) : Ev → Bool
  | .move _ _ (some _) =>
      match cfg.blockedAxis with
      | some Axis.y => false
      | _ => true
  | _ => false

/-- One event dispatched to the directive's handlers, with the list of
events emitted on `changeCurrentElIndex`.  Host listeners only run while
the directive is alive. -/
def step (cfg : Cfg) (s : DirState) : Ev → DirState × List Emitted
  | .down cx cy sx sy hit =>
      if s.alive then (onMouseDown cfg s cx cy sx sy hit, []) else (s, [])
  | .move cx cy u =>
      if s.alive then (onMouseMove cfg s cx cy u, []) else (s, [])
  | .up =>
      if s.alive then onMouseUp s else (s, [])
  | .destroy => (ngOnDestroy s, [])

/-- Run a sequence of events, collecting all emissions in order. -/
def runEvents (cfg : Cfg) (s : DirState) : List Ev → DirState × List Emitted
  | [] => (s, [])
  | e :: es =>
      let r1 := step cfg s e
      let r2 := runEvents cfg r1.1 es
      (r2.1, r1.2 ++ r2.2)

/-- State after the constructor: offsets captured, `oldIndex = -1`, the
bound listener stored, no placeholder, no session. -/
def initState (elLeft elTop : Int) (children : List Nat) (nextId : Nat) : DirState :=
  { isDragging := false
    initialX := elLeft
    initialY := elTop
    prevX := 0
    prevY := 0
    rowPlaceholderViewRef := false
    rowPlaceholderElement := none
    oldIndex := -1
    mouseMoveListener := true
    elLeft := elLeft
    elTop := elTop
    elOldIndexProp := none
    children := children
    nextId := nextId
    stylesSet := false
    draggingClass := false
    alive := true }

/-! Concrete fixtures used to evaluate the model at specific inputs. -/

/-- No axis lock, no handle, no placeholder template; host element id 7. -/
def cfgA1 : Cfg := { blockedAxis := none, dragBy := false, rowPlaceholder := false, dragId := 7 }

/-- No axis lock, no handle, no template; host element id 0. -/
def cfgB2 : Cfg := { blockedAxis := none, dragBy := false, rowPlaceholder := false, dragId := 0 }

/-- No axis lock, no handle, no template; host element id 3. -/
def cfgW2 : Cfg := { blockedAxis := none, dragBy := false, rowPlaceholder := false, dragId := 3 }

/-- Mid-session state over children `[3, 4]` with `oldIndex = 0`. -/
def sW2 : DirState :=
  { initState 0 0 [3, 4] 50 with isDragging := true, oldIndex := 0, prevY := 4 }

/-- Mid-session state over children `[0, 1]`. -/
def sW3 : DirState :=
  { initState 0 0 [0, 1] 5 with isDragging := true }

/-- Placeholder template provided, no axis lock; host element id 0. -/
def cfgN4 : Cfg := { blockedAxis := none, dragBy := false, rowPlaceholder := true, dragId := 0 }

/-- Same as `cfgN4` with the vertical axis blocked. -/
def cfgY4 : Cfg := { cfgN4 with blockedAxis := some Axis.y }

/-- Mid-session state: placeholder 7 sits between children 0 and 1. -/
def s04 : DirState :=
  { initState 0 0 [0, 7, 1] 8 with
    isDragging := true, prevY := 10,
    rowPlaceholderViewRef := true, rowPlaceholderElement := some 7,
    oldIndex := 0, stylesSet := true, draggingClass := true }

/-- No axis lock, no handle, no template; host element id 0. -/
def cfgC5 : Cfg := { blockedAxis := none, dragBy := false, rowPlaceholder := false, dragId := 0 }

/-- Mid-session state with `prevX = 15` (pointer-down at client x 10 with
scroll x 5). -/
def sW5 : DirState :=
  { initState 100 0 [0, 1] 50 with isDragging := true, prevX := 15 }

/-- Mid-session state with a live placeholder 7 inside `[0, 7, 1]`. -/
def sW6 : DirState :=
  { initState 0 0 [0, 7, 1] 8 with
    isDragging := true, rowPlaceholderViewRef := true, rowPlaceholderElement := some 7 }

/-- Vertical axis blocked, placeholder template present; host element id 1. -/
def cfgY9 : Cfg := { blockedAxis := some Axis.y, dragBy := false, rowPlaceholder := true, dragId := 1 }

/-- The directive fields and element state that are independent of the
placeholder machinery: everything except `rowPlaceholderViewRef`,
`rowPlaceholderElement`, `children` and `nextId`. -/
def corePart (s : DirState) :
    Bool × Int × Int × Int × Int × Int × Int × Int × Option Int × Bool × Bool × Bool × Bool :=
  (s.isDragging, s.initialX, s.initialY, s.prevX, s.prevY, s.oldIndex,
   s.elLeft, s.elTop, s.elOldIndexProp, s.mouseMoveListener, s.stylesSet,
   s.draggingClass, s.alive)

section FieldLemmas

variable (s : DirState)

@[simp] theorem remove_isDragging :
    (removeRowPlaceholderElement s).isDragging = s.isDragging := by
  unfold removeRowPlaceholderElement; split <;> first | rfl | (split <;> rfl)

@[simp] theorem remove_initialX :
    (removeRowPlaceholderElement s).initialX = s.initialX := by
  unfold removeRowPlaceholderElement; split <;> first | rfl | (split <;> rfl)

@[simp] theorem remove_initialY :
    (removeRowPlaceholderElement s).initialY = s.initialY := by
  unfold removeRowPlaceholderElement; split <;> first | rfl | (split <;> rfl)

@[simp] theorem remove_prevX :
    (removeRowPlaceholderElement s).prevX = s.prevX := by
  unfold removeRowPlaceholderElement; split <;> first | rfl | (split <;> rfl)

@[simp] theorem remove_prevY :
    (removeRowPlaceholderElement s).prevY = s.prevY := by
  unfold removeRowPlaceholderElement; split <;> first | rfl | (split <;> rfl)

@[simp] theorem remove_oldIndex :
    (removeRowPlaceholderElement s).oldIndex = s.oldIndex := by
  unfold removeRowPlaceholderElement; split <;> first | rfl | (split <;> rfl)

@[simp] theorem remove_mouseMoveListener :
    (removeRowPlaceholderElement s).mouseMoveListener = s.mouseMoveListener := by
  unfold removeRowPlaceholderElement; split <;> first | rfl | (split <;> rfl)

@[simp] theorem remove_elLeft :
    (removeRowPlaceholderElement s).elLeft = s.elLeft := by
  unfold removeRowPlaceholderElement; split <;> first | rfl | (split <;> rfl)

@[simp] theorem remove_elTop :
    (removeRowPlaceholderElement s).elTop = s.elTop := by
  unfold removeRowPlaceholderElement; split <;> first | rfl | (split <;> rfl)

@[simp] theorem remove_elOldIndexProp :
    (removeRowPlaceholderElement s).elOldIndexProp = s.elOldIndexProp := by
  unfold removeRowPlaceholderElement; split <;> first | rfl | (split <;> rfl)

@[simp] theorem remove_stylesSet :
    (removeRowPlaceholderElement s).stylesSet = s.stylesSet := by
  unfold removeRowPlaceholderElement; split <;> first | rfl | (split <;> rfl)

@[simp] theorem remove_draggingClass :
    (removeRowPlaceholderElement s).draggingClass = s.draggingClass := by
  unfold removeRowPlaceholderElement; split <;> first | rfl | (split <;> rfl)

@[simp] theorem remove_alive :
    (removeRowPlaceholderElement s).alive = s.alive := by
  unfold removeRowPlaceholderElement; split <;> first | rfl | (split <;> rfl)

@[simp] theorem remove_viewRef :
    (removeRowPlaceholderElement s).rowPlaceholderViewRef = false := by
  unfold removeRowPlaceholderElement; split <;> first | rfl | (split <;> rfl)

@[simp] theorem create_core (d : Nat) :
    corePart (createRowPlaceholderElement d s) = corePart s := by
  simp [createRowPlaceholderElement, corePart]

@[simp] theorem change_core (i : Int) :
    corePart (changeRowPlaceholderIndex s i) = corePart s := by
  simp only [changeRowPlaceholderIndex]
  split <;> simp [corePart]

@[simp] theorem remove_core :
    corePart (removeRowPlaceholderElement s) = corePart s := by
  simp [corePart]

@[simp] theorem create_isDragging (d : Nat) :
    (createRowPlaceholderElement d s).isDragging = s.isDragging := by
  simp [createRowPlaceholderElement]

@[simp] theorem create_prevX (d : Nat) :
    (createRowPlaceholderElement d s).prevX = s.prevX := by
  simp [createRowPlaceholderElement]

@[simp] theorem create_prevY (d : Nat) :
    (createRowPlaceholderElement d s).prevY = s.prevY := by
  simp [createRowPlaceholderElement]

@[simp] theorem create_oldIndex (d : Nat) :
    (createRowPlaceholderElement d s).oldIndex = s.oldIndex := by
  simp [createRowPlaceholderElement]

@[simp] theorem create_elLeft (d : Nat) :
    (createRowPlaceholderElement d s).elLeft = s.elLeft := by
  simp [createRowPlaceholderElement]

@[simp] theorem create_elTop (d : Nat) :
    (createRowPlaceholderElement d s).elTop = s.elTop := by
  simp [createRowPlaceholderElement]

@[simp] theorem create_elOldIndexProp (d : Nat) :
    (createRowPlaceholderElement d s).elOldIndexProp = s.elOldIndexProp := by
  simp [createRowPlaceholderElement]

@[simp] theorem create_alive (d : Nat) :
    (createRowPlaceholderElement d s).alive = s.alive := by
  simp [createRowPlaceholderElement]

@[simp] theorem create_initialX (d : Nat) :
    (createRowPlaceholderElement d s).initialX = s.initialX := by
  simp [createRowPlaceholderElement]

@[simp] theorem create_initialY (d : Nat) :
    (createRowPlaceholderElement d s).initialY = s.initialY := by
  simp [createRowPlaceholderElement]

@[simp] theorem create_mouseMoveListener (d : Nat) :
    (createRowPlaceholderElement d s).mouseMoveListener = s.mouseMoveListener := by
  simp [createRowPlaceholderElement]

@[simp] theorem create_stylesSet (d : Nat) :
    (createRowPlaceholderElement d s).stylesSet = s.stylesSet := by
  simp [createRowPlaceholderElement]

@[simp] theorem create_draggingClass (d : Nat) :
    (createRowPlaceholderElement d s).draggingClass = s.draggingClass := by
  simp [createRowPlaceholderElement]

@[simp] theorem change_isDragging (i : Int) :
    (changeRowPlaceholderIndex s i).isDragging = s.isDragging := by
  simp only [changeRowPlaceholderIndex]; split <;> simp

@[simp] theorem change_prevX (i : Int) :
    (changeRowPlaceholderIndex s i).prevX = s.prevX := by
  simp only [changeRowPlaceholderIndex]; split <;> simp

@[simp] theorem change_prevY (i : Int) :
    (changeRowPlaceholderIndex s i).prevY = s.prevY := by
  simp only [changeRowPlaceholderIndex]; split <;> simp

@[simp] theorem change_oldIndex (i : Int) :
    (changeRowPlaceholderIndex s i).oldIndex = s.oldIndex := by
  simp only [changeRowPlaceholderIndex]; split <;> simp

@[simp] theorem change_elLeft (i : Int) :
    (changeRowPlaceholderIndex s i).elLeft = s.elLeft := by
  simp only [changeRowPlaceholderIndex]; split <;> simp

@[simp] theorem change_elTop (i : Int) :
    (changeRowPlaceholderIndex s i).elTop = s.elTop := by
  simp only [changeRowPlaceholderIndex]; split <;> simp

@[simp] theorem change_elOldIndexProp (i : Int) :
    (changeRowPlaceholderIndex s i).elOldIndexProp = s.elOldIndexProp := by
  simp only [changeRowPlaceholderIndex]; split <;> simp

@[simp] theorem change_alive (i : Int) :
    (changeRowPlaceholderIndex s i).alive = s.alive := by
  simp only [changeRowPlaceholderIndex]; split <;> simp

@[simp] theorem change_initialX (i : Int) :
    (changeRowPlaceholderIndex s i).initialX = s.initialX := by
  simp only [changeRowPlaceholderIndex]; split <;> simp

@[simp] theorem change_initialY (i : Int) :
    (changeRowPlaceholderIndex s i).initialY = s.initialY := by
  simp only [changeRowPlaceholderIndex]; split <;> simp

@[simp] theorem change_mouseMoveListener (i : Int) :
    (changeRowPlaceholderIndex s i).mouseMoveListener = s.mouseMoveListener := by
  simp only [changeRowPlaceholderIndex]; split <;> simp

@[simp] theorem change_stylesSet (i : Int) :
    (changeRowPlaceholderIndex s i).stylesSet = s.stylesSet := by
  simp only [changeRowPlaceholderIndex]; split <;> simp

@[simp] theorem change_draggingClass (i : Int) :
    (changeRowPlaceholderIndex s i).draggingClass = s.draggingClass := by
  simp only [changeRowPlaceholderIndex]; split <;> simp

@[simp] theorem cleanup_isDragging :
    (cleanupListeners s).isDragging = s.isDragging := by
  unfold cleanupListeners; split <;> rfl

@[simp] theorem cleanup_alive :
    (cleanupListeners s).alive = s.alive := by
  unfold cleanupListeners; split <;> rfl

@[simp] theorem cleanup_oldIndex :
    (cleanupListeners s).oldIndex = s.oldIndex := by
  unfold cleanupListeners; split <;> rfl

@[simp] theorem cleanup_elLeft :
    (cleanupListeners s).elLeft = s.elLeft := by
  unfold cleanupListeners; split <;> rfl

@[simp] theorem cleanup_elTop :
    (cleanupListeners s).elTop = s.elTop := by
  unfold cleanupListeners; split <;> rfl

@[simp] theorem cleanup_elOldIndexProp :
    (cleanupListeners s).elOldIndexProp = s.elOldIndexProp := by
  unfold cleanupListeners; split <;> rfl

@[simp] theorem cleanup_children :
    (cleanupListeners s).children = s.children := by
  unfold cleanupListeners; split <;> rfl

@[simp] theorem cleanup_rowPlaceholderElement :
    (cleanupListeners s).rowPlaceholderElement = s.rowPlaceholderElement := by
  unfold cleanupListeners; split <;> rfl

@[simp] theorem cleanup_rowPlaceholderViewRef :
    (cleanupListeners s).rowPlaceholderViewRef = s.rowPlaceholderViewRef := by
  unfold cleanupListeners; split <;> rfl

end FieldLemmas

theorem jsIndexOf_ge_neg_one (l : List Nat) (e : Nat) : -1 ≤ jsIndexOf l e := by
  unfold jsIndexOf; split <;> omega

theorem jsIndexOf_lt_length (l : List Nat) (e : Nat) :
    jsIndexOf l e < (l.length : Int) := by
  unfold jsIndexOf
  split
  · have h : l.indexOf e < l.length := List.indexOf_lt_length.2 (by assumption)
    exact_mod_cast h
  · omega

/-- After the first removal the view ref is gone and the element, if still
recorded, is detached, so a second removal changes nothing. -/
theorem remove_remove (s : DirState) :
    removeRowPlaceholderElement (removeRowPlaceholderElement s)
      = removeRowPlaceholderElement s := by
  rcases h : s.rowPlaceholderElement with _ | ph
  · simp [removeRowPlaceholderElement, h]
  · by_cases hm : ph ∈ s.children
    · simp [removeRowPlaceholderElement, h, hm]
    · simp [removeRowPlaceholderElement, h, hm]

/-- C10: `removeRowPlaceholderElement` is idempotent — for every directive
state, calling it twice in succession yields the same state as calling it
once, so the double invocation in `onMouseUp` is harmless. -/
theorem C10_remove_idempotent (s : DirState) :
    removeRowPlaceholderElement (removeRowPlaceholderElement s)
      = removeRowPlaceholderElement s :=
  remove_remove s

/-- C1: evaluation of the emission at session end.  The claim says the
emitted pair is (index among siblings at session start, placeholder's final
index); the code instead emits `oldIndex = this.oldIndex` (the `-1`
sentinel, or the last placeholder index computed by a move) and
`newIndex = nativeElement.oldIndex`, a DOM property that is never assigned
(`undefined`, modelled as `none`).  Here the dragged element 7 sits at
sibling index 1, yet a press-and-release emits `{-1, undefined}` and a drag
with one move emits `{2, undefined}`. -/
theorem C1_emitted_pair_eval :
    (runEvents cfgA1 (initState 100 200 [5, 7, 9] 50) [Ev.down 0 0 0 0 true, Ev.up]).2
      = [{ oldIndex := -1, newIndex := none }]
    ∧ [5, 7, 9].indexOf 7 = 1
    ∧ (runEvents cfgA1 (initState 100 200 [5, 7, 9] 50)
        [Ev.down 0 0 0 0 true, Ev.move 1 1 (some 9), Ev.up]).2
      = [{ oldIndex := 2, newIndex := none }] := by
  decide

/-- C2 counterexample: a pointer-move processed during an active session can
compute a target index of `-1`, below the claimed lower bound 0.  Over
children `[0, 1]`, after pointer-down and one move over the element at index
0 (setting `oldIndex = 0`), a second move over the same element with an
upward cursor motion takes the return-to-origin branch and records
`oldIndex = -1`. -/
theorem C2_counterexample :
    (runEvents cfgB2 (initState 0 0 [0, 1] 50)
        [Ev.down 0 10 0 0 true, Ev.move 0 10 (some 0)]).1.isDragging = true
    ∧ (runEvents cfgB2 (initState 0 0 [0, 1] 50)
        [Ev.down 0 10 0 0 true, Ev.move 0 10 (some 0), Ev.move 0 9 (some 0)]).1.oldIndex
      = -1 := by
  decide

/-- C2 amended: provided the previous index is within `[-1, itemsNumber]`,
the computed target index stays within `[-1, itemsNumber]` (the
return-to-origin branch can reach `-1`; the claimed lower bound 0 does not
hold), where `itemsNumber` counts the non-placeholder siblings; and the
index the move handler records is computed over the sibling list with the
placeholder element filtered out. -/
theorem C2_amended_index_bounds (items : List Nat) (e : Nat) (old cy py : Int)
    (h1 : -1 ≤ old) (h2 : old ≤ (items.length : Int)) :
    (-1 ≤ computeNewIndex items e old cy py
      ∧ computeNewIndex items e old cy py ≤ (items.length : Int))
    ∧ ∀ (cfg : Cfg) (s : DirState) (cx : Int),
        s.isDragging = true → cfg.blockedAxis ≠ some Axis.y →
        s.oldIndex = old → s.prevY = py →
        (onMouseMove cfg s cx cy (some e)).oldIndex
          = computeNewIndex
              (s.children.filter (fun c => some c != s.rowPlaceholderElement))
              e old cy py := by
  constructor
  · have hj1 := jsIndexOf_ge_neg_one items e
    have hj2 := jsIndexOf_lt_length items e
    simp only [computeNewIndex]
    split_ifs <;> omega
  · intro cfg s cx hd hb hoi hpy
    subst hoi hpy
    simp only [onMouseMove, hd, if_true]
    rcases hax : cfg.blockedAxis with _ | ax
    · simp [hax]
    · cases ax
      · simp [hax]
      · simp [hax] at hb

/-- Witness for C2 amended, at `items = [3, 4]`, cursor over element 3,
previous index 0, cursor y going 4 → 5, and the matching mid-session state
`sW2`. -/
theorem C2_amended_witness :
    (-1 ≤ computeNewIndex [3, 4] 3 0 5 4
      ∧ computeNewIndex [3, 4] 3 0 5 4 ≤ (([3, 4] : List Nat).length : Int))
    ∧ (onMouseMove cfgW2 sW2 0 5 (some 3)).oldIndex
        = computeNewIndex
            (sW2.children.filter (fun c => some c != sW2.rowPlaceholderElement))
            3 0 5 4 :=
  ⟨(C2_amended_index_bounds [3, 4] 3 0 5 4 (by decide) (by decide)).1,
   (C2_amended_index_bounds [3, 4] 3 0 5 4 (by decide) (by decide)).2
     cfgW2 sW2 0 (by decide) (by decide) (by decide) (by decide)⟩

/-- C3: only a pointer-up while a session is active emits, and then it emits
exactly one `{oldIndex, newIndex}` event; a pointer-up with no active
session emits nothing and leaves the state unchanged. -/
theorem C3_single_emission (cfg : Cfg) (s : DirState) (e : Ev)
    (ha : s.alive = true) :
    ((step cfg s e).2.length = if isUp e && s.isDragging then 1 else 0)
    ∧ (step cfg s Ev.up).1.isDragging = false
    ∧ (s.isDragging = false → step cfg s Ev.up = (s, [])) := by
  refine ⟨?_, ?_, ?_⟩
  · cases e <;>
      simp [step, ha, isUp, onMouseUp] <;>
      by_cases hd : s.isDragging <;> simp [hd]
  · by_cases hd : s.isDragging <;> simp [step, ha, onMouseUp, hd]
  · intro hd; simp [step, ha, onMouseUp, hd]

/-- Witness for C3 at the mid-session state `sW3` and event `Ev.up`. -/
theorem C3_witness :
    ((step cfgB2 sW3 Ev.up).2.length = if isUp Ev.up && sW3.isDragging then 1 else 0)
    ∧ (step cfgB2 sW3 Ev.up).1.isDragging = false
    ∧ (sW3.isDragging = false → step cfgB2 sW3 Ev.up = (sW3, [])) :=
  C3_single_emission cfgB2 sW3 Ev.up (by decide)

/-- C8: after a pointer-up ends the session, and after the directive is
destroyed, a subsequent pointer-move changes nothing: no directive state, no
element style, no placeholder relocation, and no emission. -/
theorem C8_no_stale_move_handler (cfg : Cfg) (s : DirState) (cx cy : Int)
    (u : Option Nat) :
    step cfg (step cfg s Ev.up).1 (Ev.move cx cy u) = ((step cfg s Ev.up).1, [])
    ∧ step cfg (step cfg s Ev.destroy).1 (Ev.move cx cy u)
        = ((step cfg s Ev.destroy).1, []) := by
  constructor
  · by_cases ha : s.alive
    · by_cases hd : s.isDragging
      · have h1 : (onMouseUp s).1.isDragging = false := by simp [onMouseUp, hd]
        have h2 : (onMouseUp s).1.alive = s.alive := by simp [onMouseUp, hd]
        simp [step, ha, hd, h2, onMouseMove, h1]
      · simp [step, ha, onMouseUp, hd, onMouseMove]
    · simp [step, ha]
  · have h3 : (ngOnDestroy s).alive = false := by simp [ngOnDestroy]
    simp [step, h3]

/-- Any event that is not an index-re-evaluating move preserves
`oldIndex = -1`, and any emission it produces carries that value. -/
theorem step_oldIndex_inv (cfg : Cfg) (s : DirState) (e : Ev)
    (h : moveReevaluates cfg e = false) (ho : s.oldIndex = -1) :
    (step cfg s e).1.oldIndex = -1 ∧ ∀ em ∈ (step cfg s e).2, em.oldIndex = -1 := by
  by_cases ha : s.alive
  · cases e with
    | down cx cy sx sy hit =>
        refine ⟨?_, by simp [step, ha]⟩
        simp only [step, ha, if_true, onMouseDown]
        split_ifs <;> simp [ho]
    | move cx cy u =>
        refine ⟨?_, by simp [step, ha]⟩
        rcases u with _ | el
        · simp only [step, ha, if_true, onMouseMove]
          split_ifs <;> simp [ho]
        · have hb : cfg.blockedAxis = some Axis.y := by
            rcases hcb : cfg.blockedAxis with _ | ax
            · simp [moveReevaluates, hcb] at h
            · cases ax
              · simp [moveReevaluates, hcb] at h
              · rfl
          simp only [step, ha, if_true, onMouseMove, hb]
          split_ifs <;> simp [ho]
    | up =>
        by_cases hd : s.isDragging
        · constructor
          · simp [step, ha, onMouseUp, hd, ho]
          · intro em hem
            simp [step, ha, onMouseUp, hd] at hem
            simp [hem, ho]
        · simp [step, ha, onMouseUp, hd, ho]
    | destroy => simp [step, ngOnDestroy, ho]
  · cases e with
    | down cx cy sx sy hit => simp [step, ha, ho]
    | move cx cy u => simp [step, ha, ho]
    | up => simp [step, ha, ho]
    | destroy => simp [step, ngOnDestroy, ho]

/-- `oldIndex = -1` is invariant under event sequences with no
index-re-evaluating move, and every emission along the way carries it. -/
theorem runEvents_oldIndex_inv (cfg : Cfg) (es : List Ev) :
    ∀ s : DirState, s.oldIndex = -1 → (∀ e ∈ es, moveReevaluates cfg e = false) →
      (runEvents cfg s es).1.oldIndex = -1
      ∧ ∀ em ∈ (runEvents cfg s es).2, em.oldIndex = -1 := by
  induction es with
  | nil =>
      intro s ho _
      exact ⟨by simpa [runEvents] using ho, by simp [runEvents]⟩
  | cons e es ih =>
      intro s ho h
      have h1 := step_oldIndex_inv cfg s e (h e (by simp)) ho
      have h2 := ih (step cfg s e).1 h1.1 (fun e' he' => h e' (by simp [he']))
      refine ⟨by simpa [runEvents] using h2.1, ?_⟩
      intro em hem
      simp only [runEvents, List.mem_append] at hem
      rcases hem with hem | hem
      · exact h1.2 em hem
      · exact h2.2 em hem

/-- C9: starting from the constructor state, any event sequence without an
index-re-evaluating pointer-move (for example a press-and-release without
movement, or any drag with the vertical axis blocked) only ever emits
`oldIndex = -1`, the field's sentinel initial value — the element's actual
position among its siblings is never consulted. -/
theorem C9_sentinel_oldIndex (cfg : Cfg) (l t : Int) (ch : List Nat) (n : Nat)
    (es : List Ev) (h : ∀ e ∈ es, moveReevaluates cfg e = false) :
    ∀ em ∈ (runEvents cfg (initState l t ch n) es).2, em.oldIndex = -1 :=
  (runEvents_oldIndex_inv cfg es (initState l t ch n) rfl h).2

/-- Witness for C9: a full drag with the vertical axis blocked — down, a
move over a sibling, up — over children `[0, 1, 2]` with the host at index
1; the single emission carries `oldIndex = -1`. -/
theorem C9_witness :
    Emitted.mk (-1) none
      ∈ (runEvents cfgY9 (initState 0 0 [0, 1, 2] 50)
          [Ev.down 3 3 0 0 true, Ev.move 9 9 (some 2), Ev.up]).2
    ∧ (Emitted.mk (-1) none).oldIndex = -1 :=
  ⟨by decide,
   C9_sentinel_oldIndex cfgY9 0 0 [0, 1, 2] 50
     [Ev.down 3 3 0 0 true, Ev.move 9 9 (some 2), Ev.up] (by decide)
     (Emitted.mk (-1) none) (by decide)⟩

/-- Removing a placeholder that is present in the child list clears the
element field and erases it from the children. -/
theorem remove_result_of_mem (s : DirState) (ph : Nat)
    (hph : s.rowPlaceholderElement = some ph) (hin : ph ∈ s.children) :
    (removeRowPlaceholderElement s).rowPlaceholderElement = none
    ∧ (removeRowPlaceholderElement s).children = s.children.erase ph := by
  simp [removeRowPlaceholderElement, hph, hin]

/-- C6: for a session whose placeholder is live in the sibling list (and
occurs there once, as DOM node identity guarantees), pointer-up leaves no
live view reference, no recorded placeholder element, and no placeholder in
the sibling list. -/
theorem C6_placeholder_destroyed (s : DirState) (ph : Nat)
    (hd : s.isDragging = true)
    (hph : s.rowPlaceholderElement = some ph)
    (hin : ph ∈ s.children)
    (hct : s.children.count ph ≤ 1) :
    (onMouseUp s).1.rowPlaceholderViewRef = false
    ∧ (onMouseUp s).1.rowPlaceholderElement = none
    ∧ ph ∉ (onMouseUp s).1.children := by
  have hup : (onMouseUp s).1
      = removeRowPlaceholderElement (removeRowPlaceholderElement
          { cleanupListeners { s with isDragging := false } with
            stylesSet := false, draggingClass := false,
            initialX := (cleanupListeners { s with isDragging := false }).elLeft,
            initialY := (cleanupListeners { s with isDragging := false }).elTop }) := by
    simp [onMouseUp, hd]
  set s2 : DirState :=
    { cleanupListeners { s with isDragging := false } with
      stylesSet := false, draggingClass := false,
      initialX := (cleanupListeners { s with isDragging := false }).elLeft,
      initialY := (cleanupListeners { s with isDragging := false }).elTop } with hs2
  have h2ph : s2.rowPlaceholderElement = some ph := by simp [hs2, hph]
  have h2ch : s2.children = s.children := by simp [hs2]
  have hr := remove_result_of_mem s2 ph h2ph (h2ch ▸ hin)
  rw [hup, remove_remove]
  refine ⟨remove_viewRef s2, hr.1, ?_⟩
  rw [hr.2, h2ch]
  have hc : (s.children.erase ph).count ph = s.children.count ph - 1 :=
    List.count_erase_self ph s.children
  have hpos : 0 < s.children.count ph := List.count_pos_iff.2 hin
  have : (s.children.erase ph).count ph = 0 := by omega
  exact List.count_eq_zero.1 this

/-- Witness for C6 at the mid-session state `sW6`, whose placeholder 7 sits
inside the children `[0, 7, 1]`. -/
theorem C6_witness :
    sW6.isDragging = true
    ∧ ((onMouseUp sW6).1.rowPlaceholderViewRef = false
      ∧ (onMouseUp sW6).1.rowPlaceholderElement = none
      ∧ 7 ∉ (onMouseUp sW6).1.children) :=
  ⟨by decide,
   C6_placeholder_destroyed sW6 7 (by decide) (by decide) (by decide) (by decide)⟩

/-- C5 counterexample: on the first move after pointer-down the element is
not translated by the cursor delta when the window was scrolled at
pointer-down.  With `scrollX = 5`, pointer-down at client x 10 stores
`prevX = 15`; a move to client x 12 (cursor delta +2) changes the left
position from 100 to 97, not to 102. -/
theorem C5_counterexample :
    (runEvents cfgC5 (initState 100 0 [0, 1] 50)
        [Ev.down 10 0 5 0 true, Ev.move 12 0 none]).1.elLeft = 97
    ∧ (97 : Int) ≠ 100 + (12 - 10) := by
  decide

/-- C5 amended: each processed move with no axis blocked sets
`left := left + (clientX − prevX)` and `top := top + (clientY − prevY)` and
then stores the move's client position in `prev`; but pointer-down stores
`prev` in page coordinates (`client + scroll`), so on the first move after
pointer-down the translation is the cursor delta only when the window
scroll at pointer-down was zero. -/
theorem C5_amended_translation (cfg : Cfg) (s : DirState) (cx cy dx dy sx sy : Int)
    (u : Option Nat) (hd : s.isDragging = true) (hb : cfg.blockedAxis = none) :
    ((onMouseMove cfg s cx cy u).elLeft = s.elLeft + (cx - s.prevX)
      ∧ (onMouseMove cfg s cx cy u).elTop = s.elTop + (cy - s.prevY)
      ∧ (onMouseMove cfg s cx cy u).prevX = cx
      ∧ (onMouseMove cfg s cx cy u).prevY = cy)
    ∧ ((onMouseDown cfg s dx dy sx sy true).prevX = dx + sx
      ∧ (onMouseDown cfg s dx dy sx sy true).prevY = dy + sy) := by
  constructor
  · rcases u with _ | el <;>
      simp [onMouseMove, hd, hb] <;> split_ifs <;> simp
  · simp only [onMouseDown, Bool.or_true, if_true]
    split_ifs <;> simp

/-- Witness for C5 amended at the mid-session state `sW5` (`prevX = 15`), a
move to client (12, 0), and a pointer-down at client (10, 0) with scroll
(5, 0). -/
theorem C5_witness :
    ((onMouseMove cfgC5 sW5 12 0 none).elLeft = sW5.elLeft + (12 - sW5.prevX)
      ∧ (onMouseMove cfgC5 sW5 12 0 none).elTop = sW5.elTop + (0 - sW5.prevY)
      ∧ (onMouseMove cfgC5 sW5 12 0 none).prevX = 12
      ∧ (onMouseMove cfgC5 sW5 12 0 none).prevY = 0)
    ∧ ((onMouseDown cfgC5 sW5 10 0 5 0 true).prevX = 10 + 5
      ∧ (onMouseDown cfgC5 sW5 10 0 5 0 true).prevY = 0 + 0) :=
  C5_amended_translation cfgC5 sW5 12 0 10 0 5 0 none (by decide) (by decide)

/-- C7: with no placeholder template, pointer-down inserts no placeholder
and pointer-move relocates none (children and placeholder fields are left
untouched), while everything else — session flag, coordinates, styles,
index computation — is exactly what it would be with a template. -/
theorem C7_missing_template_degrades (cfg : Cfg) (s : DirState)
    (dx dy sx sy cx cy : Int) (hit : Bool) (u : Option Nat) :
    ((onMouseDown { cfg with rowPlaceholder := false } s dx dy sx sy hit).children
        = s.children
      ∧ (onMouseDown { cfg with rowPlaceholder := false } s dx dy sx sy hit).rowPlaceholderViewRef
        = s.rowPlaceholderViewRef
      ∧ (onMouseDown { cfg with rowPlaceholder := false } s dx dy sx sy hit).rowPlaceholderElement
        = s.rowPlaceholderElement
      ∧ corePart (onMouseDown { cfg with rowPlaceholder := false } s dx dy sx sy hit)
        = corePart (onMouseDown { cfg with rowPlaceholder := true } s dx dy sx sy hit))
    ∧ ((onMouseMove { cfg with rowPlaceholder := false } s cx cy u).children
        = s.children
      ∧ (onMouseMove { cfg with rowPlaceholder := false } s cx cy u).rowPlaceholderViewRef
        = s.rowPlaceholderViewRef
      ∧ (onMouseMove { cfg with rowPlaceholder := false } s cx cy u).rowPlaceholderElement
        = s.rowPlaceholderElement
      ∧ corePart (onMouseMove { cfg with rowPlaceholder := false } s cx cy u)
        = corePart (onMouseMove { cfg with rowPlaceholder := true } s cx cy u)) := by
  constructor
  · simp only [onMouseDown]
    split_ifs <;> simp_all [corePart]
  · simp only [onMouseMove]
    by_cases hd : s.isDragging
    · rcases u with _ | el <;>
        simp [hd] <;> split_ifs <;> simp_all [corePart]
    · simp [hd]

@[simp] theorem remove_nextId (s : DirState) :
    (removeRowPlaceholderElement s).nextId = s.nextId := by
  unfold removeRowPlaceholderElement; split <;> first | rfl | (split <;> rfl)

@[simp] theorem remove_element_eq (s : DirState) :
    (removeRowPlaceholderElement s).rowPlaceholderElement
      = (removeEC s.rowPlaceholderElement s.children).1 := by
  rcases h : s.rowPlaceholderElement with _ | ph
  · simp [removeRowPlaceholderElement, removeEC, h]
  · by_cases hm : ph ∈ s.children <;> simp [removeRowPlaceholderElement, removeEC, h, hm]

@[simp] theorem remove_children_eq (s : DirState) :
    (removeRowPlaceholderElement s).children
      = (removeEC s.rowPlaceholderElement s.children).2 := by
  rcases h : s.rowPlaceholderElement with _ | ph
  · simp [removeRowPlaceholderElement, removeEC, h]
  · by_cases hm : ph ∈ s.children <;> simp [removeRowPlaceholderElement, removeEC, h, hm]

@[simp] theorem change_viewRef (s : DirState) (i : Int) :
    (changeRowPlaceholderIndex s i).rowPlaceholderViewRef = true := by
  simp only [changeRowPlaceholderIndex]; split <;> simp

@[simp] theorem change_element (s : DirState) (i : Int) :
    (changeRowPlaceholderIndex s i).rowPlaceholderElement = some s.nextId := by
  simp only [changeRowPlaceholderIndex]; split <;> simp

@[simp] theorem change_nextId (s : DirState) (i : Int) :
    (changeRowPlaceholderIndex s i).nextId = s.nextId + 1 := by
  simp only [changeRowPlaceholderIndex]; split <;> simp

@[simp] theorem change_children (s : DirState) (i : Int) :
    (changeRowPlaceholderIndex s i).children =
      if i = (((removeEC s.rowPlaceholderElement s.children).2).length : Int)
      then (removeEC s.rowPlaceholderElement s.children).2 ++ [s.nextId]
      else insertBeforeAt (removeEC s.rowPlaceholderElement s.children).2 i s.nextId := by
  simp only [changeRowPlaceholderIndex]
  split_ifs <;> simp_all

/-- C4 counterexample: blocking the vertical axis does more than leave the
top position unchanged — it also suppresses the placeholder relocation and
the index update.  From the mid-session state `s04` (placeholder 7 inside
`[0, 7, 1]`, `oldIndex = 0`), the same move with `blockedAxis = 'y'` leaves
`children = [0, 7, 1]` and `oldIndex = 0`, while the unlocked move yields
`children = [0, 8, 1]` and `oldIndex = 1`. -/
theorem C4_counterexample :
    (onMouseMove cfgY4 s04 0 5 (some 1)).elTop = s04.elTop
    ∧ (onMouseMove cfgY4 s04 0 5 (some 1)).children = [0, 7, 1]
    ∧ (onMouseMove cfgN4 s04 0 5 (some 1)).children = [0, 8, 1]
    ∧ (onMouseMove cfgY4 s04 0 5 (some 1)).oldIndex = 0
    ∧ (onMouseMove cfgN4 s04 0 5 (some 1)).oldIndex = 1 := by
  decide

/-- C4 amended: during an active session, blocking the horizontal axis
leaves the left position unchanged and everything else exactly as in the
unlocked move; blocking the vertical axis leaves the top position unchanged
but additionally skips the whole index re-evaluation — the move then only
translates the element horizontally and updates the stored cursor
position. -/
theorem C4_amended_axis_lock (cfg : Cfg) (s : DirState) (cx cy : Int)
    (u : Option Nat) (hd : s.isDragging = true) :
    (onMouseMove { cfg with blockedAxis := some Axis.x } s cx cy u
      = { onMouseMove { cfg with blockedAxis := none } s cx cy u with elLeft := s.elLeft })
    ∧ (onMouseMove { cfg with blockedAxis := some Axis.y } s cx cy u
      = { s with elLeft := s.elLeft + (cx - s.prevX), prevX := cx, prevY := cy }) := by
  constructor
  · rcases u with _ | el
    · simp [onMouseMove, hd]
    · by_cases hrp : cfg.rowPlaceholder <;> simp [onMouseMove, hd, hrp]
  · simp [onMouseMove, hd]

/-- Witness for C4 amended at the mid-session state `s04` and the move to
client (0, 5) over sibling 1. -/
theorem C4_witness :
    (onMouseMove { cfgN4 with blockedAxis := some Axis.x } s04 0 5 (some 1)
      = { onMouseMove { cfgN4 with blockedAxis := none } s04 0 5 (some 1) with
          elLeft := s04.elLeft })
    ∧ (onMouseMove { cfgN4 with blockedAxis := some Axis.y } s04 0 5 (some 1)
      = { s04 with elLeft := s04.elLeft + (0 - s04.prevX), prevX := 0, prevY := 5 }) :=
  C4_amended_axis_lock cfgN4 s04 0 5 (some 1) (by decide)

end Draggable
